import Mathlib

/-!
Verification development for the RipperFox backend (`yt_backend.py` and
`ytdlp_updater.py`): the download-job dispatcher, the site-configuration
matcher, the settings store and the update-orchestration state machine.

Python values are shallowly embedded:
* Python dicts that are used in insertion order become association lists;
  `dict[k] = v` keeps the position of an existing key and appends otherwise.
* Python strings become `String`; the string algorithms the code relies on
  (`str.split(",")`, `str.strip`, `str.strip("*")`, substring test `in`,
  `fnmatch.fnmatch`) are re-implemented structurally on `List Char` so that
  every definition evaluates inside the kernel.
* Filesystem paths become `FsPath` (an absolute flag plus a component list);
  the `os.path` functions used by the settings code are mirrored on it.
* Exceptions become `Except`; the outcome of external processes and of the
  yt-dlp library call are inputs to the embedded task bodies.
-/

namespace RipperFox

/-! ### Python string helpers -/

/-- ASCII whitespace as recognised by `str.strip()` (the unicode cases are
not needed for hostname patterns). -/
def pyIsSpace (c : Char) : Bool :=
  c == ' ' || c == '\t' || c == '\n' || c == '\r' || c == '\x0b' || c == '\x0c'

/-- Remove characters satisfying `p` from both ends, like `str.strip`. -/
def stripEnds (p : Char → Bool) (cs : List Char) : List Char :=
  ((cs.dropWhile p).reverse.dropWhile p).reverse

/-- Python `str.strip()` on the underlying character list. -/
def pyStrip (cs : List Char) : List Char := stripEnds pyIsSpace cs

/-- Python `str.strip("*")`: remove leading and trailing `*` characters. -/
def pyStripStar (s : String) : String := ⟨stripEnds (· == '*') s.data⟩

/-- Python `str.split(",")` on the character list: `""` splits to `[""]`,
separators are not merged. -/
def pySplitComma : List Char → List (List Char)
  | [] => [[]]
  | c :: rest =>
    let r := pySplitComma rest
    if c == ',' then [] :: r
    else
      match r with
      | [] => [[c]]
      | g :: gs => (c :: g) :: gs

/-- The Python substring test `sub in s`. -/
def pySubstr (sub s : String) : Bool :=
  (List.range (s.data.length + 1)).any fun i => sub.data.isPrefixOf (s.data.drop i)

/-! ### `fnmatch.fnmatch` (POSIX case: `os.path.normcase` is the identity)

The pattern is first scanned into tokens (`*`, `?`, character classes and
literals, with an unterminated `[` taken literally, as `fnmatch.translate`
does), then matched against the whole name. -/

/-- Split a character-class body at its closing `]`. -/
def findClose : List Char → Option (List Char × List Char)
  | [] => none
  | ']' :: rest => some ([], rest)
  | c :: cs => (findClose cs).map fun pr => (c :: pr.1, pr.2)

/-- Parse the body of a `[...]` class (just after the `[`): returns the
negation flag, the class content and the remainder of the pattern, or
`none` when there is no closing `]`.  A `]` directly after the `[` (or
after `[!`) belongs to the content. -/
def parseCls (ps : List Char) : Option (Bool × List Char × List Char) :=
  match ps with
  | '!' :: ']' :: ps3 => (findClose ps3).map fun pr => (true, ']' :: pr.1, pr.2)
  | '!' :: ps2 => (findClose ps2).map fun pr => (true, pr.1, pr.2)
  | ']' :: ps2 => (findClose ps2).map fun pr => (false, ']' :: pr.1, pr.2)
  | _ => (findClose ps).map fun pr => (false, pr.1, pr.2)

/-- One token of a compiled glob pattern. -/
inductive GlobTok where
  | star : GlobTok
  | anyChar : GlobTok
  | lit (c : Char) : GlobTok
  | cls (negated : Bool) (content : List Char) : GlobTok
deriving DecidableEq, Repr

/-- Does character `c` fall in a class body (literals and `a-b` ranges,
with a trailing `-` taken literally)? -/
def inCls (c : Char) : List Char → Bool
  | [] => false
  | a :: '-' :: b :: rest => (decide (a ≤ c) && decide (c ≤ b)) || inCls c rest
  | a :: rest => (a == c) || inCls c rest

/-- Scan a glob pattern into tokens.  The fuel argument only bounds the
scan; it is always called with the pattern length, which suffices because
every step consumes at least one character. -/
def compileGlob : Nat → List Char → List GlobTok
  | 0, _ => []
  | _ + 1, [] => []
  | fuel + 1, '*' :: ps => .star :: compileGlob fuel ps
  | fuel + 1, '?' :: ps => .anyChar :: compileGlob fuel ps
  | fuel + 1, '[' :: ps =>
    match parseCls ps with
    | some (neg, content, rest) => .cls neg content :: compileGlob fuel rest
    | none => .lit '[' :: compileGlob fuel ps
  | fuel + 1, c :: ps => .lit c :: compileGlob fuel ps

/-- Match compiled tokens against the whole string; `*` matches any
sequence, so the rest of the tokens must match some suffix. -/
def tokMatch : List GlobTok → List Char → Bool
  | [], s => s.isEmpty
  | .star :: ts, s => s.tails.any fun s2 => tokMatch ts s2
  | .anyChar :: ts, s =>
    match s with
    | [] => false
    | _ :: cs => tokMatch ts cs
  | .lit c :: ts, s =>
    match s with
    | [] => false
    | d :: cs => c == d && tokMatch ts cs
  | .cls neg content :: ts, s =>
    match s with
    | [] => false
    | d :: cs => (inCls d content != neg) && tokMatch ts cs

/-- Python `fnmatch.fnmatch(name, pattern)` on Linux. -/
def fnmatch (name pattern : String) : Bool :=
  tokMatch (compileGlob pattern.data.length pattern.data) name.data

/-! ### Site matcher (`get_site_config`, `yt_backend.py` lines 263–286)

A per-site configuration value is a Python dict (here, an association list
of string fields such as `"dir"` and `"args"`).  The source tests
`if matched_cfg:` — dict truthiness — so an empty configuration counts as
no match. -/

/-- A `download_dirs` value: a Python dict from field names to strings. -/
abbrev Cfg := List (String × String)

/-- One pattern of a group matches: full `fnmatch`, or the pattern with
its `*` characters stripped occurs as a substring of the hostname
(`fnmatch(hostname, pattern) or pattern.strip("*") in hostname`). -/
def patternMatches (hostname pattern : String) : Bool :=
  fnmatch hostname pattern || pySubstr (pyStripStar pattern) hostname

/-- Split a comma-separated pattern group, strip whitespace, drop empties
(`[p.strip() for p in pattern_group.split(",") if p.strip()]`). -/
def splitPatterns (group : String) : List String :=
  (((pySplitComma group.data).map pyStrip).filter fun cs => !cs.isEmpty).map
    fun cs => String.mk cs

/-- Some pattern of the group matches the hostname.  The source breaks out
of the inner loop at the first matching pattern; since every pattern of a
group selects the same configuration (the matched pattern itself is only
logged), this is `List.any`. -/
def groupMatches (hostname group : String) : Bool :=
  (splitPatterns group).any (patternMatches hostname)

/-- Python truthiness of the `matched_cfg` variable (`None` or a dict). -/
def cfgTruthy : Option Cfg → Bool
  | none => false
  | some c => !c.isEmpty

/-- The loop of `get_site_config`: `acc` is the current `matched_cfg`.
A matching group overwrites `acc` and the loop stops only when the new
`matched_cfg` is truthy (`if matched_cfg: break`); at the end a falsy
`matched_cfg` yields `None` (`if matched_cfg: ... return matched_cfg`). -/
def siteLoop (hostname : String) : List (String × Cfg) → Option Cfg → Option Cfg
  | [], acc => if cfgTruthy acc then acc else none
  | (group, cfg) :: rest, acc =>
    let acc2 := if groupMatches hostname group then some cfg else acc
    if cfgTruthy acc2 then acc2 else siteLoop hostname rest acc2

/-- Model of `get_site_config(url, download_dirs)`.  The source first computes
`hostname = urlparse(url).hostname or ""`; the embedding takes that
hostname directly (a URL with no parseable hostname gives `""`). -/
def get_site_config (hostname : String) (download_dirs : List (String × Cfg)) :
    Option Cfg :=
  siteLoop hostname download_dirs none

/-- The site matcher as the specification words it: the configuration of
the first pattern group, in insertion order, containing a pattern that
matches the hostname; `none` when no group qualifies. -/
def spec_site_match (hostname : String) (download_dirs : List (String × Cfg)) :
    Option Cfg :=
  (download_dirs.find? fun kc => groupMatches hostname kc.1).map fun kc => kc.2

/-! ### Paths and the settings store (`yt_backend.py` lines 113–257)

A POSIX path is an absolute flag plus a list of components; the components
are assumed normalised (the code only ever joins literal component names).
`BASE_DIR` is absolute in the source
(`os.path.dirname(os.path.abspath(__file__))`), and every call of
`os.path.abspath` in the settings code receives either an absolute path or
a join with `BASE_DIR`, so `pyAbspath` below is exercised on those. -/

structure FsPath where
  absolute : Bool
  comps : List String
deriving DecidableEq, Repr

/-- Model of `os.path.join(a, b)`: an absolute second argument wins. -/
def pyJoin (a b : FsPath) : FsPath :=
  if b.absolute then b else ⟨a.absolute, a.comps ++ b.comps⟩

/-- Model of `os.path.abspath` relative to the current working directory. -/
def pyAbspath (cwd p : FsPath) : FsPath :=
  if p.absolute then p else ⟨true, cwd.comps ++ p.comps⟩

/-- Longest common component run of two component lists. -/
def commonComps : List String → List String → List String
  | a :: as, b :: bs => if a == b then a :: commonComps as bs else []
  | _, _ => []

/-- Model of `os.path.commonpath([a, b])` for two paths of the same kind (the
source only calls it on two `abspath` results, which are absolute). -/
def pyCommonpath (a b : FsPath) : FsPath :=
  ⟨a.absolute && b.absolute, commonComps a.comps b.comps⟩

/-- Model of `os.path.relpath(p, start)`; the source only calls it when `p` lies
under `start`, in which case no `..` components are produced. -/
def pyRelpath (p start : FsPath) : FsPath :=
  let k := (commonComps p.comps start.comps).length
  ⟨false, List.replicate (start.comps.length - k) ".." ++ p.comps.drop k⟩

/-- Python truthiness of a path string: only `""` is falsy. -/
def pathTruthy (p : FsPath) : Bool := p.absolute || !p.comps.isEmpty

/-- Is `p` an absolute path lying under `base`
(`os.path.commonpath([os.path.abspath(p), os.path.abspath(base)]) ==
os.path.abspath(base)`, guarded by `os.path.isabs(p)`)? -/
def absUnderBase (cwd base p : FsPath) : Bool :=
  p.absolute && (pyCommonpath (pyAbspath cwd p) (pyAbspath cwd base) == pyAbspath cwd base)

/-- A `download_dirs` entry as the settings code manipulates it:
`cfg.get("dir")` and `cfg.get("args")` may each be absent. -/
structure DirCfg where
  dir : Option FsPath
  args : Option String
deriving DecidableEq, Repr

/-- The settings document (its JSON schema); the embedding models complete
documents, which is what `save_settings` writes and what `base.update(data)`
produces for them. -/
structure SettingsDoc where
  default_dir : FsPath
  default_args : String
  download_dirs : List (String × DirCfg)
  show_toasts : Bool
deriving DecidableEq, Repr

/-- Model of `save_settings(data)`: before persisting, rewrite `default_dir` and
every `download_dirs[*].dir` that is absolute and under `BASE_DIR` to the
relative form.  The returned document is what is written to
`settings.json`. -/
def save_settings (cwd base_dir : FsPath) (data : SettingsDoc) : SettingsDoc :=
  let dd := data.default_dir
  let dd2 := if absUnderBase cwd base_dir dd then pyRelpath dd base_dir else dd
  let ddirs := data.download_dirs.map fun kc =>
    match kc.2.dir with
    | some d =>
      if absUnderBase cwd base_dir d then
        (kc.1, { kc.2 with dir := some (pyRelpath d base_dir) })
      else kc
    | none => kc
  { data with default_dir := dd2, download_dirs := ddirs }

/-- What `load_settings` computes when the settings file holds `stored`:
the normalised document `result` that the function actually returns
(`return base`, line 257), the runtime-resolved copy `runtime` (built on
lines 209–248 and then discarded), and the re-persisted document when the
normalisation changed anything.  Directory creation is modelled as
succeeding, so the fallback ladder for an unwritable directory is not
taken; the claims under proof do not touch it. -/
structure LoadResult where
  result : SettingsDoc
  runtime : SettingsDoc
  persisted : Option SettingsDoc
deriving DecidableEq, Repr

/-- Model of `load_settings()` on an existing, parseable settings file. -/
def load_settings (cwd base_dir : FsPath) (stored : SettingsDoc) : LoadResult :=
  -- Convert stored absolute paths under BASE_DIR back to relative.
  let dd := stored.default_dir
  let changed1 := absUnderBase cwd base_dir dd
  let dd2 := if changed1 then pyRelpath dd base_dir else dd
  let changedDirs := stored.download_dirs.any fun kc =>
    match kc.2.dir with
    | some d => absUnderBase cwd base_dir d
    | none => false
  let ddirs := stored.download_dirs.map fun kc =>
    match kc.2.dir with
    | some d =>
      if absUnderBase cwd base_dir d then
        (kc.1, { kc.2 with dir := some (pyRelpath d base_dir) })
      else kc
    | none => kc
  let base := { stored with default_dir := dd2, download_dirs := ddirs }
  let persisted := if changed1 || changedDirs then some (save_settings cwd base_dir base) else none
  -- Build the runtime-resolved copy (the source then returns `base`).
  let rdd := if !base.default_dir.absolute then
      pyAbspath cwd (pyJoin base_dir base.default_dir)
    else base.default_dir
  let rdirs := base.download_dirs.map fun kc =>
    match kc.2.dir with
    | some d =>
      if pathTruthy d && !d.absolute then
        (kc.1, { kc.2 with dir := some (pyAbspath cwd (pyJoin base_dir d)) })
      else kc
    | none => kc
  let runtime := { base with default_dir := rdd, download_dirs := rdirs }
  { result := base, runtime := runtime, persisted := persisted }

/-! ### Job tracker and download dispatcher (`yt_backend.py` lines 94–95,
341–428)

`JOBS` is an insertion-ordered Python dict; each background task mutates
its own entry.  The embedding runs each dispatched task to completion (the
sequential interleaving of the thread-per-job model). -/

/-- One tracked job (`{"url", "site", "status", "dir"}`). -/
structure JobRec where
  url : String
  site : String
  status : String
  dir : String
deriving DecidableEq, Repr

/-- The `JOBS` dict, in insertion order. -/
abbrev JobStore := List (String × JobRec)

/-- The constant `JOB_HISTORY_LIMIT = 10`. -/
def JOB_HISTORY_LIMIT : Nat := 10

/-- Python dict assignment `JOBS[k] = v`: overwrite in place, else append. -/
def dictInsert (jobs : JobStore) (k : String) (v : JobRec) : JobStore :=
  if jobs.any fun kv => kv.1 == k then
    jobs.map fun kv => if kv.1 == k then (k, v) else kv
  else jobs ++ [(k, v)]

/-- Assignment `JOBS[job_id]["status"] = s`. -/
def setStatus (jobs : JobStore) (k s : String) : JobStore :=
  jobs.map fun kv => if kv.1 == k then (kv.1, { kv.2 with status := s }) else kv

/-- Status lookup, `JOBS.get(k, {}).get("status")`. -/
def statusOf (jobs : JobStore) (k : String) : Option String :=
  (jobs.find? fun kv => kv.1 == k).map fun kv => kv.2.status

/-- The cleanup at the end of `run_job` (lines 411–414): when more than
`JOB_HISTORY_LIMIT` jobs are tracked, delete the keys before the last
`JOB_HISTORY_LIMIT` ones (`list(JOBS.keys())[:-JOB_HISTORY_LIMIT]`). -/
def evictIfOver (jobs : JobStore) : JobStore :=
  if jobs.length > JOB_HISTORY_LIMIT then
    jobs.drop (jobs.length - JOB_HISTORY_LIMIT)
  else jobs

/-- Outcome of `run_ytdlp_with_binary`: a completed process (return code,
stdout, stderr) or a raised exception. -/
inductive BinRunResult where
  | ret (returncode : Int) (stdout stderr : String)
  | exn (msg : String)
deriving DecidableEq, Repr

/-- What one run of the `run_job` task body did: the final `JOBS`, the
sequence of statuses written to this job, whether the library path
(`yt_dlp.YoutubeDL`) was attempted, whether the cleanup at the end of the
function was reached, and the store at the moment the last status was
written (before cleanup). -/
structure RunOutcome where
  jobs : JobStore
  trace : List String
  libAttempted : Bool
  evictionRan : Bool
  preEvict : JobStore
deriving DecidableEq, Repr

/-- The tail of `run_job` from the library fallback on: run
`yt_dlp.YoutubeDL(...).download([url])`, record `"completed"` or
`"error: <message>"`, then clean up old jobs. -/
def run_job_library (jobId : String) (libRes : Except String Unit)
    (jobs : JobStore) (tr : List String) : RunOutcome :=
  match libRes with
  | .ok _ =>
    let jobs2 := setStatus jobs jobId "completed"
    { jobs := evictIfOver jobs2
      trace := tr ++ ["completed"]
      libAttempted := true
      evictionRan := true
      preEvict := jobs2 }
  | .error e =>
    let msg := "error: " ++ e
    let jobs2 := setStatus jobs jobId msg
    { jobs := evictIfOver jobs2
      trace := tr ++ [msg]
      libAttempted := true
      evictionRan := true
      preEvict := jobs2 }

/-- The `run_job` task body (lines 359–414).  Inputs: whether
`ytdlp_updater` imported (`YTDLP_UPDATER_AVAILABLE`), the binary attempt
outcome and the library attempt outcome.  A `custom_args` of `none`
(a site configuration without an `"args"` field) makes the option building
raise `TypeError` before the binary attempt; the outer handler records it.
On a zero binary return code the function returns early — the cleanup at
the end of the function is *not* reached. -/
def run_job (jobId : String) (customArgs : Option String) (binaryAvailable : Bool)
    (binRes : BinRunResult) (libRes : Except String Unit) (jobs0 : JobStore) :
    RunOutcome :=
  let jobs := setStatus jobs0 jobId "running"
  match customArgs with
  | none =>
    let msg := "error: argument of type NoneType is not iterable"
    let jobs2 := setStatus jobs jobId msg
    { jobs := evictIfOver jobs2
      trace := ["running", msg]
      libAttempted := false
      evictionRan := true
      preEvict := jobs2 }
  | some _ =>
    if binaryAvailable then
      match binRes with
      | .ret rc _ stderr =>
        if rc == 0 then
          let jobs2 := setStatus jobs jobId "completed"
          { jobs := jobs2
            trace := ["running", "completed"]
            libAttempted := false
            evictionRan := false
            preEvict := jobs2 }
        else
          let msg := "error: " ++ stderr
          let jobs2 := setStatus jobs jobId msg
          run_job_library jobId libRes jobs2 (["running", msg])
      | .exn _ => run_job_library jobId libRes jobs ["running"]
    else run_job_library jobId libRes jobs ["running"]

/-- The settings fields the dispatcher reads (runtime strings; the
dispatcher manipulates no paths beyond passing them on). -/
structure DispatchSettings where
  default_dir : String
  default_args : String
  download_dirs : List (String × Cfg)
deriving Repr

/-- Lookup `cfg.get(k)`. -/
def cfgGet (cfg : Cfg) (k : String) : Option String :=
  (cfg.find? fun kv => kv.1 == k).map fun kv => kv.2

/-- The HTTP response of the `/api/download` handler: the 400 error
payload, an uncaught-exception 500, or `{"job_id": ...}`. -/
inductive HttpResp where
  | badRequest (error : String)
  | serverError
  | accepted (job_id : String)
deriving DecidableEq, Repr

/-- The data the handler hands to the background thread. -/
structure TaskSpec where
  job_id : String
  url : String
  download_dir : String
  custom_args : Option String
deriving DecidableEq, Repr

/-- Allocation `job_id = str(int(time.time() * 1000))`: the decimal string of the
creation time in milliseconds. -/
def jobIdOfMs (nowMs : Nat) : String := toString nowMs

/-- The `/api/download` handler (lines 341–417).  `hostnameOf` stands for
`urllib.parse.urlparse(url).hostname` (`none` when the URL has no
parseable hostname); `urlField` is `data.get("url")`.  Returns the
response, the updated `JOBS`, and the spawned task (when any); the
caller does not wait for the task. -/
def download (hostnameOf : String → Option String) (nowMs : Nat)
    (urlField : Option String) (settings : DispatchSettings) (jobs : JobStore) :
    HttpResp × JobStore × Option TaskSpec :=
  let url := urlField.getD ""
  if url == "" then (.badRequest "No URL provided", jobs, none)
  else
    let hostname := (hostnameOf url).getD "unknown"
    let site := get_site_config hostname settings.download_dirs
    let download_dir :=
      match site with
      | some cfg => cfgGet cfg "dir"
      | none => some settings.default_dir
    let custom_args :=
      match site with
      | some cfg => cfgGet cfg "args"
      | none => some settings.default_args
    match download_dir with
    | none => (.serverError, jobs, none)  -- os.makedirs(None) raises TypeError
    | some ddir =>
      let job_id := jobIdOfMs nowMs
      let jobs2 := dictInsert jobs job_id
        { url := url, site := hostname, status := "starting", dir := ddir }
      (.accepted job_id, jobs2,
        some { job_id := job_id, url := url, download_dir := ddir, custom_args := custom_args })

/-- The `/api/status` GET handler (lines 420–422):
`dict(list(JOBS.items())[-JOB_HISTORY_LIMIT:])` — the last
`JOB_HISTORY_LIMIT` entries (keys of a dict are unique, so rebuilding the
dict keeps them all, in order). -/
def status (jobs : JobStore) : JobStore :=
  jobs.drop (jobs.length - JOB_HISTORY_LIMIT)

/-- One dispatch request together with the environment of its background
task. -/
structure DispatchOp where
  nowMs : Nat
  urlField : Option String
  binaryAvailable : Bool
  binRes : BinRunResult
  libRes : Except String Unit

/-- A dispatch followed by its background task run to completion. -/
def dispatchAndRun (hostnameOf : String → Option String)
    (settings : DispatchSettings) (jobs : JobStore) (op : DispatchOp) : JobStore :=
  match download hostnameOf op.nowMs op.urlField settings jobs with
  | (_, jobs2, none) => jobs2
  | (_, jobs2, some ts) =>
    (run_job ts.job_id ts.custom_args op.binaryAvailable op.binRes op.libRes jobs2).jobs

/-- A sequence of dispatches, each run to completion. -/
def foldDispatch (hostnameOf : String → Option String)
    (settings : DispatchSettings) : JobStore → List DispatchOp → JobStore
  | jobs, [] => jobs
  | jobs, op :: ops => foldDispatch hostnameOf settings (dispatchAndRun hostnameOf settings jobs op) ops

/-- Does `run_job` take the early `return` on binary success? -/
def isRetZero : BinRunResult → Bool
  | .ret rc _ _ => rc == 0
  | .exn _ => false

/-- The task of this dispatch ends in the binary-success early return and
so skips the cleanup. -/
def skipsCleanup (op : DispatchOp) : Bool :=
  op.binaryAvailable && isRetZero op.binRes

/-! ### Update orchestration (`yt_backend.py` lines 305–338)

`UPDATE_JOB` is a module-level singleton; the `_do_update` thread body
mutates it.  `download_latest_ytdlp` catches its own exceptions and
returns a boolean; `ensure_ytdlp_binary` may raise, which the `except`
of `_do_update` records as a failure. -/

structure UpdateJob where
  status : String
  message : String
  started_at : Option Nat
  finished_at : Option Nat
  latest_version : Option String
deriving DecidableEq, Repr

/-- The initial singleton (line 307). -/
def UPDATE_JOB : UpdateJob :=
  { status := "idle"
    message := "Idle"
    started_at := none
    finished_at := none
    latest_version := none }

/-- Python `f"Updated to {version}"` formatting of an optional value. -/
def pyFormatOpt : Option String → String
  | none => "None"
  | some v => v

/-- The states the `UPDATE_JOB` record passes through during one
`_do_update` run (lines 315–330), in order: the `running` state written
first, then the terminal state.  `downloadOk` is the boolean returned by
`download_latest_ytdlp()`; `ensureRes` the result of
`ensure_ytdlp_binary()` (its reported version, or a raised exception). -/
def doUpdateRun (u : UpdateJob) (t0 t1 : Nat) (downloadOk : Bool)
    (ensureRes : Except String (Option String)) : List UpdateJob :=
  let running := { u with
    status := "running"
    message := "Starting update..."
    started_at := some t0
    finished_at := none }
  match downloadOk, ensureRes with
  | true, .ok version =>
    [running, { running with
      status := "succeeded"
      message := "Updated to " ++ pyFormatOpt version
      finished_at := some t1
      latest_version := version }]
  | true, .error e =>
    [running, { running with status := "failed", message := e, finished_at := some t1 }]
  | false, _ =>
    [running, { running with
      status := "failed"
      message := "Download failed"
      finished_at := some t1 }]

/-! ### Decimal job-id strings

`str(int(time.time() * 1000))` is `toString` on `Nat`, which is
`Nat.repr`, built by `Nat.toDigitsCore`.  To reason about it we relate it
to a structural decimal-digit function and prove the digit list uniquely
determines the number. -/

/-- The decimal digit characters of `n`, most significant first. -/
def decRepr (n : Nat) : List Char :=
  if n < 10 then [Nat.digitChar n]
  else decRepr (n / 10) ++ [Nat.digitChar (n % 10)]
termination_by n
decreasing_by exact Nat.div_lt_self (by omega) (by omega)

/-- The number a decimal digit list denotes. -/
def decVal (cs : List Char) : Nat :=
  cs.foldl (fun a c => 10 * a + (c.toNat - 48)) 0

/-! ### Concrete inputs used by witnesses and counterexamples -/

/-- A hostname oracle for URLs whose hostname does not parse. -/
def demoHost : String → Option String := fun _ => none

/-- A plain runtime settings value with no per-site overrides. -/
def demoSettings : DispatchSettings :=
  { default_dir := "downloads", default_args := "", download_dirs := [] }

/-- A store holding one freshly created job. -/
def demoStore : JobStore :=
  [("1", { url := "u", site := "s", status := "starting", dir := "d" })]

/-- Eleven dispatches whose tasks all succeed through the library path. -/
def c4LibOps : List DispatchOp := (List.range 11).map fun i =>
  { nowMs := 1000 + i, urlField := some "https://example.com/v"
    binaryAvailable := false, binRes := .ret 0 "" "", libRes := .ok () }

/-- Eleven dispatches whose tasks all succeed through the binary path. -/
def c4SkipOps : List DispatchOp := (List.range 11).map fun i =>
  { nowMs := 1000 + i, urlField := some "https://example.com/v"
    binaryAvailable := true, binRes := .ret 0 "" "", libRes := .ok () }

/-- A store already holding eleven finished jobs. -/
def c8Jobs : JobStore := (List.range 11).map fun i =>
  (toString i, { url := "u", site := "s", status := "completed", dir := "d" })

/-- The working directory of the settings examples. -/
def demoCwd : FsPath := { absolute := true, comps := ["cwd"] }

/-- The `BASE_DIR` of the settings examples. -/
def demoBase : FsPath := { absolute := true, comps := ["app"] }

/-- The default settings document `load_settings` starts from. -/
def defaultSettingsDoc : SettingsDoc :=
  { default_dir := { absolute := false, comps := ["downloads"] }
    default_args := "--recode-video mp4 --embed-thumbnail --embed-metadata"
    download_dirs := []
    show_toasts := true }

theorem toDigitsCore_eq_decRepr (fuel : Nat) :
    ∀ (n : Nat) (ds : List Char), n < fuel →
      Nat.toDigitsCore 10 fuel n ds = decRepr n ++ ds := by
  induction fuel with
  | zero => omega
  | succ fuel ih =>
    intro n ds h
    by_cases h0 : n / 10 = 0
    · have hn : n < 10 := by omega
      rw [decRepr]
      simp [Nat.toDigitsCore, h0, hn, Nat.mod_eq_of_lt hn]
    · have hlt : n / 10 < n := Nat.div_lt_self (by omega) (by omega)
      have hn : ¬ n < 10 := by omega
      rw [decRepr]
      simp only [Nat.toDigitsCore, h0, if_false, hn]
      rw [ih (n / 10) _ (by omega)]
      simp

theorem decVal_append (xs : List Char) (c : Char) :
    decVal (xs ++ [c]) = 10 * decVal xs + (c.toNat - 48) := by
  simp [decVal, List.foldl_append]

theorem digitChar_toNat (n : Nat) (h : n < 10) : (Nat.digitChar n).toNat = 48 + n := by
  interval_cases n <;> rfl

theorem decVal_decRepr (n : Nat) : decVal (decRepr n) = n := by
  induction n using Nat.strong_induction_on with
  | _ n ih =>
    by_cases h : n < 10
    · rw [decRepr]
      simp only [h, if_true, decVal, List.foldl]
      rw [digitChar_toNat n h]
      omega
    · rw [decRepr]
      simp only [h, if_false]
      rw [decVal_append, ih (n / 10) (Nat.div_lt_self (by omega) (by omega))]
      rw [digitChar_toNat (n % 10) (Nat.mod_lt _ (by omega))]
      omega

theorem toString_nat_eq_decRepr (n : Nat) : toString n = String.mk (decRepr n) := by
  show Nat.repr n = _
  unfold Nat.repr Nat.toDigits
  rw [toDigitsCore_eq_decRepr (n + 1) n [] (Nat.lt_succ_self n)]
  simp [List.asString]

theorem toString_nat_inj {a b : Nat} (h : toString a = toString b) : a = b := by
  rw [toString_nat_eq_decRepr, toString_nat_eq_decRepr] at h
  have hd : decRepr a = decRepr b := congrArg String.data h
  have := decVal_decRepr a
  rw [hd, decVal_decRepr b] at this
  omega

/-! ### Helper lemmas -/

theorem evictIfOver_length_le (l : JobStore) :
    (evictIfOver l).length ≤ JOB_HISTORY_LIMIT := by
  unfold evictIfOver
  split
  · simp only [List.length_drop]
    omega
  · omega

theorem evictIfOver_suffix (l : JobStore) : evictIfOver l <:+ l := by
  unfold evictIfOver
  split
  · exact List.drop_suffix _ _
  · exact List.suffix_refl l

theorem setStatus_statusOf (jobs : JobStore) (k s : String)
    (h : (statusOf jobs k).isSome) : statusOf (setStatus jobs k s) k = some s := by
  induction jobs with
  | nil => simp [statusOf] at h
  | cons kv rest ih =>
    cases hk : (kv.1 == k) with
    | true => simp [statusOf, setStatus, List.find?, hk]
    | false =>
      have hr := ih (by simpa [statusOf, List.find?, hk] using h)
      simpa [statusOf, setStatus, List.find?, hk] using hr

theorem run_job_library_spec (jobId : String) (lr : Except String Unit)
    (jobs : JobStore) (tr : List String)
    (hj : (statusOf jobs jobId).isSome) :
    (run_job_library jobId lr jobs tr).evictionRan = true ∧
    (run_job_library jobId lr jobs tr).jobs
        = evictIfOver (run_job_library jobId lr jobs tr).preEvict ∧
    ∃ s, statusOf (run_job_library jobId lr jobs tr).preEvict jobId = some s ∧
      (s = "completed" ∨ ∃ d, s = "error: " ++ d) := by
  cases lr with
  | ok u =>
    refine ⟨rfl, rfl, "completed", ?_, Or.inl rfl⟩
    exact setStatus_statusOf jobs jobId "completed" hj
  | error e =>
    refine ⟨rfl, rfl, "error: " ++ e, ?_, Or.inr ⟨e, rfl⟩⟩
    exact setStatus_statusOf jobs jobId ("error: " ++ e) hj

theorem run_job_library_length_le (jobId : String) (lr : Except String Unit)
    (jobs : JobStore) (tr : List String) :
    (run_job_library jobId lr jobs tr).jobs.length ≤ JOB_HISTORY_LIMIT := by
  cases lr <;> exact evictIfOver_length_le _

theorem run_job_length_le (jobId : String) (ca : Option String) (ba : Bool)
    (br : BinRunResult) (lr : Except String Unit) (jobs : JobStore)
    (h : (ba && isRetZero br) = false) :
    (run_job jobId ca ba br lr jobs).jobs.length ≤ JOB_HISTORY_LIMIT := by
  cases ca with
  | none =>
    simp only [run_job]
    exact evictIfOver_length_le _
  | some a =>
    cases hba : ba with
    | false =>
      simp only [run_job]
      exact run_job_library_length_le _ _ _ _
    | true =>
      cases br with
      | exn m =>
        simp only [run_job]
        exact run_job_library_length_le _ _ _ _
      | ret rc out err =>
        have hrc : (rc == 0) = false := by
          rw [hba] at h
          simpa [isRetZero] using h
        simp only [run_job, hrc, Bool.false_eq_true, if_false]
        exact run_job_library_length_le _ _ _ _

theorem download_task_none (hostnameOf : String → Option String) (nowMs : Nat)
    (urlField : Option String) (settings : DispatchSettings) (jobs : JobStore)
    (h : (download hostnameOf nowMs urlField settings jobs).2.2 = none) :
    (download hostnameOf nowMs urlField settings jobs).2.1 = jobs := by
  simp only [download] at h ⊢
  split at h
  · rename_i hc
    simp [hc]
  · rename_i hc
    split at h
    · rename_i heq
      simp [hc, heq]
    · simp at h

theorem dispatchAndRun_length_le (hostnameOf : String → Option String)
    (settings : DispatchSettings) (jobs : JobStore) (op : DispatchOp)
    (h : skipsCleanup op = false) :
    (dispatchAndRun hostnameOf settings jobs op).length
        ≤ max jobs.length JOB_HISTORY_LIMIT := by
  unfold dispatchAndRun
  split
  · rename_i resp jobs2 heq
    have h1 := download_task_none hostnameOf op.nowMs op.urlField settings jobs
      (by rw [heq])
    rw [heq] at h1
    have h1' : jobs2 = jobs := by simpa using h1
    rw [h1']
    exact le_max_left _ _
  · rename_i resp jobs2 ts heq
    have h2 := run_job_length_le ts.job_id ts.custom_args op.binaryAvailable
      op.binRes op.libRes jobs2 (by simpa [skipsCleanup] using h)
    omega

theorem foldDispatch_length_le (hostnameOf : String → Option String)
    (settings : DispatchSettings) :
    ∀ (ops : List DispatchOp) (jobs : JobStore),
      (∀ op ∈ ops, skipsCleanup op = false) →
      jobs.length ≤ JOB_HISTORY_LIMIT →
      (foldDispatch hostnameOf settings jobs ops).length ≤ JOB_HISTORY_LIMIT := by
  intro ops
  induction ops with
  | nil =>
    intro jobs _ hlen
    simpa [foldDispatch] using hlen
  | cons op rest ih =>
    intro jobs hall hlen
    rw [foldDispatch]
    refine ih _ (fun o ho => hall o (List.mem_cons_of_mem _ ho)) ?_
    have := dispatchAndRun_length_le hostnameOf settings jobs op
      (hall op (List.mem_cons_self _ _))
    omega

theorem stripEnds_all_eq_nil (p : Char → Bool) (cs : List Char)
    (h : cs.all p = true) : stripEnds p cs = [] := by
  unfold stripEnds
  have h1 : cs.dropWhile p = [] := by
    rw [List.dropWhile_eq_nil_iff]
    intro x hx
    exact List.all_eq_true.mp h x hx
  simp [h1]

theorem pySubstr_empty (s : String) : pySubstr "" s = true := by
  unfold pySubstr
  refine List.any_eq_true.mpr ⟨0, ?_, ?_⟩
  · simp [List.mem_range]
  · simp [List.isPrefixOf]

theorem siteLoop_eq_find (hostname : String) :
    ∀ (dd : List (String × Cfg)),
      (∀ kc ∈ dd, kc.2 ≠ ([] : Cfg)) →
      siteLoop hostname dd none
        = (dd.find? fun kc => groupMatches hostname kc.1).map fun kc => kc.2 := by
  intro dd
  induction dd with
  | nil => intro _; rfl
  | cons kc rest ih =>
    intro h
    obtain ⟨g, cfg⟩ := kc
    by_cases hg : groupMatches hostname g
    · have hcfg : cfg ≠ [] := h (g, cfg) (List.mem_cons_self _ _)
      have htr : cfgTruthy (some cfg) = true := by
        simp [cfgTruthy, hcfg]
      simp [siteLoop, hg, htr, List.find?]
    · simp only [siteLoop, hg, if_false, List.find?]
      simp only [Bool.false_eq_true, if_false, cfgTruthy]
      exact ih fun kc hk => h kc (List.mem_cons_of_mem _ hk)

theorem statusOf_setStatus_isSome (jobs : JobStore) (k s : String)
    (h : (statusOf jobs k).isSome) : (statusOf (setStatus jobs k s) k).isSome := by
  rw [setStatus_statusOf jobs k s h]
  rfl

/-! ### The claims -/

/-- C1: the claim says the settings value returned by `load_settings` has
`default_dir` resolved to an absolute path while the on-disk form stays
relative.  The code builds that runtime-resolved copy but then returns
`base` (`yt_backend.py` line 257), so the returned `default_dir` keeps the
stored relative form: saving the default document and loading it back
yields the relative `downloads`, while the discarded `runtime` copy holds
the absolute resolution the claim (and the code's own comments)
describe. -/
theorem C1_load_returns_unresolved_default_dir :
    (save_settings demoCwd demoBase defaultSettingsDoc).default_dir
        = { absolute := false, comps := ["downloads"] } ∧
    (load_settings demoCwd demoBase
        (save_settings demoCwd demoBase defaultSettingsDoc)).persisted = none ∧
    (load_settings demoCwd demoBase
        (save_settings demoCwd demoBase defaultSettingsDoc)).result.default_dir
        = { absolute := false, comps := ["downloads"] } ∧
    (load_settings demoCwd demoBase
        (save_settings demoCwd demoBase defaultSettingsDoc)).runtime.default_dir
        = { absolute := true, comps := ["app", "downloads"] } := by
  exact ⟨rfl, rfl, rfl, rfl⟩

/-- C2 (counterexample): the claim says `get_site_config` returns the
configuration of the first pattern group containing a matching pattern and
stops there.  With a first group whose configuration is the empty dict,
the group matches every hostname, yet the falsy `matched_cfg` does not
break the loop and the second group's configuration is returned
instead. -/
theorem C2_counterexample :
    groupMatches "example.com" "*" = true ∧
    spec_site_match "example.com" [("*", ([] : Cfg)), ("*com*", [("dir", "x")])]
        = some [] ∧
    get_site_config "example.com" [("*", ([] : Cfg)), ("*com*", [("dir", "x")])]
        = some [("dir", "x")] := by
  exact ⟨by decide, by decide, by decide⟩

/-- C2 (amended): when every pattern group's configuration is a non-empty
mapping, `get_site_config` returns exactly what the specification words
say: the configuration of the first group, in insertion order, containing
a pattern `p` with `hostname` glob-matching `p` or `p` stripped of its
`*` characters a substring of `hostname`; `none` when no group
qualifies. -/
theorem C2_first_match_wins (hostname : String) (dd : List (String × Cfg))
    (h : ∀ kc ∈ dd, kc.2 ≠ ([] : Cfg)) :
    get_site_config hostname dd = spec_site_match hostname dd := by
  unfold get_site_config spec_site_match
  exact siteLoop_eq_find hostname dd h

theorem C2_witness :
    get_site_config "youtu.be" [("*youtube*, *youtu.be*", [("dir", "yt"), ("args", "-x")])]
      = spec_site_match "youtu.be" [("*youtube*, *youtu.be*", [("dir", "yt"), ("args", "-x")])] :=
  C2_first_match_wins "youtu.be" _ (by decide)

/-- C3: a dispatch request whose `url` field is absent or empty is answered
with the 400 error payload, the job store is unchanged and no background
task is started. -/
theorem C3_empty_url_rejected (hostnameOf : String → Option String) (nowMs : Nat)
    (urlField : Option String) (settings : DispatchSettings) (jobs : JobStore)
    (h : urlField = none ∨ urlField = some "") :
    download hostnameOf nowMs urlField settings jobs
        = (.badRequest "No URL provided", jobs, none) := by
  rcases h with h | h <;> subst h <;> rfl

theorem C3_witness :
    download demoHost 0 none demoSettings []
        = (.badRequest "No URL provided", [], none) :=
  C3_empty_url_rejected demoHost 0 none demoSettings [] (Or.inl rfl)

/-- C4 (counterexample): eleven dispatches whose tasks all complete through
the binary-success early return leave eleven tracked jobs — the cleanup at
the end of `run_job` is skipped by the `return`, so the store exceeds the
history limit. -/
theorem C4_counterexample :
    JOB_HISTORY_LIMIT < (foldDispatch demoHost demoSettings [] c4SkipOps).length := by
  decide

/-- C4 (amended): for every sequence of dispatches whose background tasks
do not take the binary-success early return (which skips the cleanup), the
store never holds more than `JOB_HISTORY_LIMIT` jobs after any prefix of
the sequence; and whenever the eviction step trims the store it keeps
exactly the most recently inserted `JOB_HISTORY_LIMIT` entries, dropping
the oldest. -/
theorem C4_bounded_history (hostnameOf : String → Option String)
    (settings : DispatchSettings) (ops : List DispatchOp)
    (h : ∀ op ∈ ops, skipsCleanup op = false) :
    (∀ pfx, pfx <+: ops →
      (foldDispatch hostnameOf settings [] pfx).length ≤ JOB_HISTORY_LIMIT) ∧
    (∀ l : JobStore, evictIfOver l <:+ l ∧
      (JOB_HISTORY_LIMIT < l.length →
        evictIfOver l = l.drop (l.length - JOB_HISTORY_LIMIT) ∧
        (evictIfOver l).length = JOB_HISTORY_LIMIT)) := by
  constructor
  · intro pfx hpfx
    refine foldDispatch_length_le hostnameOf settings pfx [] ?_ (by simp)
    intro op hop
    exact h op (hpfx.sublist.subset hop)
  · intro l
    refine ⟨evictIfOver_suffix l, fun hl => ⟨?_, ?_⟩⟩
    · unfold evictIfOver
      rw [if_pos hl]
    · unfold evictIfOver
      rw [if_pos hl]
      simp only [List.length_drop]
      omega

theorem C4_witness :
    (foldDispatch demoHost demoSettings [] c4LibOps).length ≤ JOB_HISTORY_LIMIT :=
  (C4_bounded_history demoHost demoSettings c4LibOps (by decide)).1 c4LibOps ⟨[], by simp⟩

/-- C5: the `/api/status` GET handler returns exactly the most recent
`min(count, JOB_HISTORY_LIMIT)` tracked jobs, in insertion order — it is
the final segment of the store of that length. -/
theorem C5_status_snapshot (jobs : JobStore) :
    jobs.take (jobs.length - JOB_HISTORY_LIMIT) ++ status jobs = jobs ∧
    status jobs <:+ jobs ∧
    (status jobs).length = min jobs.length JOB_HISTORY_LIMIT := by
  refine ⟨List.take_append_drop _ _, List.drop_suffix _ _, ?_⟩
  simp only [status, List.length_drop]
  omega

/-- C6: the update record starts `"idle"`; a triggered run first writes
`"running"` and then exactly one of `"succeeded"` or `"failed"`, so within
one run the statuses are monotone and never revert to `"idle"`. -/
theorem C6_update_lifecycle :
    UPDATE_JOB.status = "idle" ∧
    ∀ (t0 t1 : Nat) (downloadOk : Bool) (ensureRes : Except String (Option String)),
      (doUpdateRun UPDATE_JOB t0 t1 downloadOk ensureRes).map UpdateJob.status
          = ["running", "succeeded"] ∨
      (doUpdateRun UPDATE_JOB t0 t1 downloadOk ensureRes).map UpdateJob.status
          = ["running", "failed"] := by
  refine ⟨rfl, ?_⟩
  intro t0 t1 ok res
  cases ok <;> cases res <;> first | exact Or.inl rfl | exact Or.inr rfl

/-- C7: with the binary machinery available, a binary attempt exiting 0
marks the job `"completed"` without attempting the library path; a
non-zero exit first records `error: <stderr>` and then attempts the
library path, and a successful library run ends the job `"completed"`. -/
theorem C7_binary_then_library (jobId args stdout1 stderr1 stdout2 stderr2 : String)
    (rc : Int) (lr : Except String Unit) (jobs : JobStore) :
    ((run_job jobId (some args) true (.ret 0 stdout1 stderr1) lr jobs).trace
        = ["running", "completed"] ∧
     (run_job jobId (some args) true (.ret 0 stdout1 stderr1) lr jobs).libAttempted
        = false) ∧
    (rc ≠ 0 →
      (run_job jobId (some args) true (.ret rc stdout2 stderr2) (.ok ()) jobs).trace
          = ["running", "error: " ++ stderr2, "completed"] ∧
      (run_job jobId (some args) true (.ret rc stdout2 stderr2) (.ok ()) jobs).libAttempted
          = true) := by
  constructor
  · exact ⟨rfl, rfl⟩
  · intro hrc
    have hrc2 : (rc == 0) = false := by
      rw [beq_eq_false_iff_ne]
      exact hrc
    constructor <;> simp [run_job, run_job_library, hrc2]

theorem C7_witness :
    ((run_job "j" (some "") true (.ret 0 "" "") (.ok ()) demoStore).trace
        = ["running", "completed"] ∧
     (run_job "j" (some "") true (.ret 0 "" "") (.ok ()) demoStore).libAttempted = false) ∧
    ((run_job "j" (some "") true (.ret 1 "" "boom") (.ok ()) demoStore).trace
        = ["running", "error: boom", "completed"] ∧
     (run_job "j" (some "") true (.ret 1 "" "boom") (.ok ()) demoStore).libAttempted
        = true) := by
  have h := C7_binary_then_library "j" "" "" "" "" "boom" 1 (.ok ()) demoStore
  exact ⟨h.1, h.2 (by decide)⟩

/-- C8 (counterexample): a binary-success run returns before the cleanup —
on a store already holding eleven jobs the eviction step does not run and
the store stays over the limit. -/
theorem C8_counterexample :
    (run_job "5" (some "") true (.ret 0 "" "") (.ok ()) c8Jobs).evictionRan = false ∧
    JOB_HISTORY_LIMIT < (run_job "5" (some "") true (.ret 0 "" "") (.ok ()) c8Jobs).jobs.length := by
  exact ⟨by decide, by decide⟩

/-- C8 (amended): in every terminal case other than the binary-success
early return (binary failure then library, binary exception then library,
library alone, or the option-building failure), the cleanup runs on the
store after the terminal status — `"completed"` or `error: ...` — has been
recorded for the job. -/
theorem C8_eviction_after_terminal (jobId : String) (ca : Option String) (ba : Bool)
    (br : BinRunResult) (lr : Except String Unit) (jobs : JobStore)
    (hj : (statusOf jobs jobId).isSome)
    (h : ca = none ∨ (ba && isRetZero br) = false) :
    (run_job jobId ca ba br lr jobs).evictionRan = true ∧
    (run_job jobId ca ba br lr jobs).jobs
        = evictIfOver (run_job jobId ca ba br lr jobs).preEvict ∧
    ∃ s, statusOf (run_job jobId ca ba br lr jobs).preEvict jobId = some s ∧
      (s = "completed" ∨ ∃ d, s = "error: " ++ d) := by
  have hj1 : (statusOf (setStatus jobs jobId "running") jobId).isSome :=
    statusOf_setStatus_isSome jobs jobId "running" hj
  cases ca with
  | none =>
    refine ⟨rfl, rfl, "error: argument of type NoneType is not iterable", ?_,
      Or.inr ⟨"argument of type NoneType is not iterable", rfl⟩⟩
    exact setStatus_statusOf _ _ _ hj1
  | some a =>
    cases hba : ba with
    | false => exact run_job_library_spec jobId lr _ _ hj1
    | true =>
      cases br with
      | exn m => exact run_job_library_spec jobId lr _ _ hj1
      | ret rc out err =>
        rcases h with h | h
        · simp at h
        · have hrc : (rc == 0) = false := by
            rw [hba] at h
            simpa [isRetZero] using h
          have hred : run_job jobId (some a) true (.ret rc out err) lr jobs
              = run_job_library jobId lr
                  (setStatus (setStatus jobs jobId "running") jobId ("error: " ++ err))
                  ["running", "error: " ++ err] := by
            simp [run_job, hrc]
          rw [hred]
          exact run_job_library_spec jobId lr _ _
            (statusOf_setStatus_isSome _ _ _ hj1)

theorem C8_witness :
    (run_job "1" (some "") false (.ret 0 "" "") (.ok ()) demoStore).evictionRan = true ∧
    (run_job "1" (some "") false (.ret 0 "" "") (.ok ()) demoStore).jobs
        = evictIfOver (run_job "1" (some "") false (.ret 0 "" "") (.ok ()) demoStore).preEvict ∧
    ∃ s, statusOf (run_job "1" (some "") false (.ret 0 "" "") (.ok ()) demoStore).preEvict "1"
        = some s ∧ (s = "completed" ∨ ∃ d, s = "error: " ++ d) :=
  C8_eviction_after_terminal "1" (some "") false (.ret 0 "" "") (.ok ()) demoStore
    (by decide) (Or.inr rfl)

/-- C9 (counterexample): two distinct dispatches (different URLs) issued in
the same millisecond allocate the same job id, since the id is just the
decimal string of the timestamp. -/
theorem C9_counterexample :
    (download demoHost 1700000000000 (some "https://a.example/v") demoSettings []).1
        = .accepted "1700000000000" ∧
    (download demoHost 1700000000000 (some "https://b.example/w") demoSettings []).1
        = .accepted "1700000000000" ∧
    ("https://a.example/v" : String) ≠ "https://b.example/w" := by
  exact ⟨rfl, rfl, by decide⟩

/-- C9 (amended): job ids of dispatches whose creation times in
milliseconds differ are distinct — the decimal string of the timestamp
determines the timestamp. -/
theorem C9_distinct_ms_distinct_ids (t1 t2 : Nat) (h : t1 ≠ t2) :
    jobIdOfMs t1 ≠ jobIdOfMs t2 :=
  fun hc => h (toString_nat_inj hc)

theorem C9_witness : jobIdOfMs 1700000000000 ≠ jobIdOfMs 1700000000001 :=
  C9_distinct_ms_distinct_ids 1700000000000 1700000000001 (by decide)

/-- C10 (counterexample): the claim says a first group holding an all-`*`
pattern makes `get_site_config` match every URL; with the empty dict as
that group's configuration the loose match does succeed, but the falsy
`matched_cfg` makes the function return `none`. -/
theorem C10_counterexample :
    (splitPatterns "*").all (fun p => p.data.all (· == '*')) = true ∧
    get_site_config "" [("*", ([] : Cfg))] = none := by
  exact ⟨by decide, by decide⟩

/-- C10 (amended): if the first pattern group holds a pattern consisting
only of `*` characters and its configuration is non-empty, then
`get_site_config` returns that configuration for every hostname, the empty
hostname of an unparseable URL included: stripping the `*` characters
leaves the empty string, a substring of every hostname. -/
theorem C10_all_star_matches_everything (g : String) (cfg : Cfg)
    (rest : List (String × Cfg)) (hostname : String)
    (hp : ∃ p ∈ splitPatterns g, p.data.all (· == '*') = true)
    (hc : cfg ≠ []) :
    get_site_config hostname ((g, cfg) :: rest) = some cfg := by
  obtain ⟨p, hmem, hstar⟩ := hp
  have hstrip : pyStripStar p = "" := by
    unfold pyStripStar
    rw [stripEnds_all_eq_nil _ _ hstar]
  have hpm : patternMatches hostname p = true := by
    unfold patternMatches
    rw [hstrip, pySubstr_empty]
    simp
  have hgm : groupMatches hostname g = true :=
    List.any_eq_true.mpr ⟨p, hmem, hpm⟩
  have htr : cfgTruthy (some cfg) = true := by
    simp [cfgTruthy, hc]
  unfold get_site_config
  simp [siteLoop, hgm, htr]

theorem C10_witness :
    get_site_config "" [("*", [("dir", "yt")])] = some [("dir", "yt")] :=
  C10_all_star_matches_everything "*" [("dir", "yt")] [] ""
    ⟨"*", by decide, by decide⟩ (by decide)

end RipperFox
